import Mathlib

/-
Shallow embedding of the streamgui repository (src/main.rs, src/twitch/mod.rs,
src/server/mod.rs), covering the request bridge, the application state machine,
the platform client, and the OAuth callback listener.

Modelling conventions:
- Network effects (the Helix HTTP calls performed by the `twitch_api` crate)
  are abstracted as a `PlatformOracle`: a record of functions giving, for each
  underlying remote call, its outcome.  The repository's own control flow
  around those calls is translated faithfully.
- The std mpsc channel between the UI thread and spawned bridge tasks is a
  FIFO list of `TwitchMessage`: `tx.send` appends at the back, `try_recv`
  pops the front.
- A Rust panic (`.unwrap()` on `Err`, per `App::update`) is modelled as
  `none` in an `Option` result.
- Each platform-client operation additionally returns the list of Helix GET
  requests it issued (`client.helix.req_get` calls), so that "no request was
  performed" is expressible; the first component is the Rust return value.
-/

namespace Streamgui

/-- Category payload (`twitch_api::types::TwitchCategory`), restricted to the
fields the program reads. -/
structure TwitchCategory where
  id : String
  name : String
deriving DecidableEq, Repr

/-- Stream payload (`twitch_api::helix::streams::Stream`), restricted to the
fields the program reads. -/
structure Stream where
  title : String
  user_name : String
deriving DecidableEq, Repr

/-- Opaque payload of `ClientRequestError<reqwest::Error>`. -/
structure ClientRequestError where
  detail : String
deriving DecidableEq, Repr

/-- Error taxonomy of `src/twitch/mod.rs`. -/
inductive TwitchError where
  | ClientError (e : ClientRequestError)
  | TokenError
  | UserIdError
deriving DecidableEq, Repr

/-- Result of `UserToken::from_existing` when it succeeds: the validated token,
restricted to the field the program reads (`token.user_id()`). -/
structure UserTokenInfo where
  user_id : Option String
deriving DecidableEq, Repr

/-- A Helix GET request issued through `client.helix.req_get`, with the
parameters the program sets. -/
inductive HelixReq where
  | topGames (first : Nat) (pagination : Option String)
  | streams (first : Nat) (game_id : Option String) (pagination : Option String)
  | followed (first : Nat) (user_id : String) (pagination : Option String)
deriving DecidableEq, Repr

/-- Outcomes of the remote platform calls, abstracting the network: `validate`
is `UserToken::from_existing` (`none` = any failure), and the other three give
the outcome of the corresponding Helix GET request. -/
structure PlatformOracle where
  validate : String → Option UserTokenInfo
  topGames : String → Option String → Except ClientRequestError (List TwitchCategory)
  streams : String → Option String → Option String → Except ClientRequestError (List Stream)
  followed : String → String → Option String → Except ClientRequestError (List Stream)

/-- `get_token` (src/twitch/mod.rs:37-54): validate the bearer token; any
failure collapses to `TokenError`. -/
def get_token (o : PlatformOracle) (token : String) : Except TwitchError UserTokenInfo :=
  match o.validate token with
  | some tok => .ok tok
  | none => .error .TokenError

/-- `check_login` (src/twitch/mod.rs:24-35): true iff `get_token` succeeds. -/
def check_login (o : PlatformOracle) (token : String) : Bool :=
  match get_token o token with
  | .ok _ => true
  | .error _ => false

/-- `get_top_categories` (src/twitch/mod.rs:56-80).  Second component: the
Helix GET requests issued. -/
def get_top_categories (o : PlatformOracle) (token : String) (pagination : Option String) :
    Except TwitchError (List TwitchCategory) × List HelixReq :=
  match get_token o token with
  | .error e => (.error e, [])
  | .ok _tok =>
    match o.topGames token pagination with
    | .ok resp => (.ok resp, [.topGames 50 pagination])
    | .error err => (.error (.ClientError err), [.topGames 50 pagination])

/-- `get_streams` (src/twitch/mod.rs:82-107). -/
def get_streams (o : PlatformOracle) (token : String) (game_id : Option String)
    (pagination : Option String) :
    Except TwitchError (List Stream) × List HelixReq :=
  match get_token o token with
  | .error e => (.error e, [])
  | .ok _tok =>
    match o.streams token game_id pagination with
    | .ok resp => (.ok resp, [.streams 50 game_id pagination])
    | .error err => (.error (.ClientError err), [.streams 50 game_id pagination])

/-- `get_followed_streams` (src/twitch/mod.rs:109-134): resolve the user id
from the validated token first; `UserIdError` when absent, before any Helix
GET request is issued. -/
def get_followed_streams (o : PlatformOracle) (token : String) (pagination : Option String) :
    Except TwitchError (List Stream) × List HelixReq :=
  match get_token o token with
  | .error e => (.error e, [])
  | .ok tok =>
    match tok.user_id with
    | none => (.error .UserIdError, [])
    | some uid =>
      match o.followed token uid pagination with
      | .ok resp => (.ok resp, [.followed 50 uid pagination])
      | .error err => (.error (.ClientError err), [.followed 50 uid pagination])

/-! ## Callback listener (src/server/mod.rs) -/

/-- HTTP method of an incoming request. -/
inductive Method where
  | GET
  | POST
  | PUT
  | DELETE
  | HEAD
  | OPTIONS
  | PATCH
deriving DecidableEq, Repr

/-- HTTP response: status code and body text.  `Response::new` defaults to
status 200. -/
structure HttpResponse where
  status : Nat
  body : String
deriving DecidableEq, Repr

/-- `http_server_handler` (src/server/mod.rs:48-61).  The Rust error type is
`Infallible`; accordingly the result is `Except Empty`, always `.ok`. -/
def http_server_handler (m : Method) (path : String) : Except Empty HttpResponse :=
  match m, path with
  | .GET, "/" => .ok { status := 200, body := "Copy the token out of the URL above!" }
  | _, _ => .ok { status := 404, body := "" }

/-! ## Request bridge and application state (src/main.rs) -/

/-- Decidable equality for `Except`, needed to derive it for the message
types below. -/
instance exceptDecEq {ε α : Type} [DecidableEq ε] [DecidableEq α] :
    DecidableEq (Except ε α) := fun x y =>
  match x, y with
  | .error a, .error b =>
    if h : a = b then .isTrue (congrArg Except.error h)
    else .isFalse (fun he => h (Except.error.inj he))
  | .error _, .ok _ => .isFalse (fun he => Except.noConfusion he)
  | .ok _, .error _ => .isFalse (fun he => Except.noConfusion he)
  | .ok a, .ok b =>
    if h : a = b then .isTrue (congrArg Except.ok h)
    else .isFalse (fun he => h (Except.ok.inj he))

/-- `TwitchOption` (src/main.rs:143-154): requests and results carried on the
channel.  `CategoryId` is its string form. -/
inductive TwitchOption where
  | LoginCheck
  | LoginResult (b : Bool)
  | GetTopCategories (pagination : Option String)
  | GetStreams (pagination : Option String)
  | GetFollowedStreams
  | GetCategoryStreams (category : String)
  | TopCategoriesResult (r : Except TwitchError (List TwitchCategory))
  | StreamsResult (r : Except TwitchError (List Stream))
  | GetFollowedStreamsResult (r : Except TwitchError (List Stream))
  | GetCategoryStreamsResult (r : Except TwitchError (List Stream))
deriving DecidableEq, Repr

/-- `TwitchMessage` (src/main.rs:156-159). -/
structure TwitchMessage where
  token : Option String
  opt : TwitchOption
deriving DecidableEq, Repr

/-- The mpsc channel contents: FIFO, front = oldest.  `send` appends at the
back, `try_recv` pops the front. -/
abbrev Channel := List TwitchMessage

/-- `send_req` (src/main.rs:542-604): the body of the spawned bridge task, as
its effect on the channel.  A missing token aborts the task (only an error is
logged); otherwise the matching platform-client call runs and its result is
wrapped and sent; result variants fall into the silent catch-all.  The
`ctx.request_repaint()` at the end has no channel effect. -/
def send_req (o : PlatformOracle) (msg : TwitchMessage) (ch : Channel) : Channel :=
  match msg.token with
  | none => ch
  | some token =>
    match msg.opt with
    | .LoginCheck =>
      ch ++ [{ token := none, opt := .LoginResult (check_login o token) }]
    | .GetTopCategories pagination =>
      ch ++ [{ token := none, opt := .TopCategoriesResult (get_top_categories o token pagination).1 }]
    | .GetStreams pagination =>
      ch ++ [{ token := none, opt := .StreamsResult (get_streams o token none pagination).1 }]
    | .GetFollowedStreams =>
      ch ++ [{ token := none, opt := .GetFollowedStreamsResult (get_followed_streams o token none).1 }]
    | .GetCategoryStreams category =>
      ch ++ [{ token := none, opt := .GetCategoryStreamsResult (get_streams o token (some category) none).1 }]
    | _ => ch

/-- `AppView` (src/main.rs:134-141). -/
inductive AppView where
  | Login
  | Categories
  | Streams
  | FollowedLive
  | Settings
  | CategoryView
deriving DecidableEq, Repr

/-- `AppConfig` (src/main.rs:58-61). -/
structure AppConfig where
  token : Option String
deriving DecidableEq, Repr

/-- `App` (src/main.rs:161-176): the UI-thread state.  The channel ends
(`send`, `recv`) are threaded explicitly through the frame functions, and
`persisted` models the configuration file that `AppConfig::save` writes
(`streamlink_tasks` carries no observable state and is omitted). -/
structure App where
  token : String
  config : AppConfig
  persisted : AppConfig
  login_pending : Bool
  current_view : AppView
  error_message : Option String
  categories : Option (List TwitchCategory)
  streams : Option (List Stream)
  followed_streams : Option (List Stream)
  focused_stream : Option Stream
  focused_category : Option TwitchCategory
  focused_category_streams : Option (List Stream)
deriving DecidableEq, Repr

/-- `App::logout` (src/main.rs:208-220): `config.save()` is the write of the
cleared `config` into `persisted`. -/
def App.logout (a : App) : App :=
  { a with
    token := ""
    config := { a.config with token := none }
    persisted := { a.config with token := none }
    login_pending := false
    current_view := .Login
    categories := none
    streams := none
    followed_streams := none
    focused_stream := none
    focused_category := none
    focused_category_streams := none }

/-- The drained-message dispatch of `App::update` (src/main.rs:257-292):
given the `opt` of the received message, the updated state plus the requests
it dispatches through `send_req` (the `request_followed` of a successful
login), or `none` when the arm panics (`result.unwrap()` on an `Err`). -/
def App.processMsg (a : App) (opt : TwitchOption) : Option (App × List TwitchMessage) :=
  match opt with
  | .LoginResult result =>
    match a.current_view with
    | .Login =>
      if result then
        some ({ a with
                  error_message := none
                  current_view := .FollowedLive
                  config := { a.config with token := some a.token }
                  persisted := { a.config with token := some a.token } },
              [{ token := some a.token, opt := .GetFollowedStreams }])
      else
        some ({ a with error_message := some "login failed" }, [])
    | _ => some (a, [])
  | .TopCategoriesResult result =>
    match result with
    | .ok v => some ({ a with categories := some v }, [])
    | .error _ => none
  | .StreamsResult result =>
    match result with
    | .ok v => some ({ a with streams := some v }, [])
    | .error _ => none
  | .GetFollowedStreamsResult result =>
    match result with
    | .ok v => some ({ a with followed_streams := some v }, [])
    | .error _ => none
  | .GetCategoryStreamsResult result =>
    match result with
    | .ok v => some ({ a with focused_category_streams := some v }, [])
    | .error _ => none
  | _ => some (a, [])

/-- The remainder of `App::update` after the drain (src/main.rs:294-539) on a
frame with no user input: the auto-login early return (src/main.rs:297-311)
and the `CategoryView` self-heal of the central panel (src/main.rs:502-508).
Result: (state, remaining channel, requests dispatched this frame). -/
def App.update_rest (a : App) (ch : Channel) (dispatched : List TwitchMessage) :
    App × Channel × List TwitchMessage :=
  if a.login_pending = true ∧ a.token ≠ "" then
    ({ a with login_pending := false }, ch,
      dispatched ++ [{ token := some a.token, opt := .LoginCheck }])
  else
    match ({ a with login_pending := false } : App).current_view with
    | .CategoryView =>
      if ({ a with login_pending := false } : App).focused_category = none then
        ({ a with login_pending := false, current_view := .Categories }, ch, dispatched)
      else
        ({ a with login_pending := false }, ch, dispatched)
    | _ => ({ a with login_pending := false }, ch, dispatched)

/-- One render tick of `App::update` (src/main.rs:256-539) with no user input:
`try_recv` pops at most the channel front, the drained message is dispatched
through `App.processMsg`, then the rest of the frame runs.  `none` is a panic
of the UI thread. -/
def App.update (a : App) (ch : Channel) : Option (App × Channel × List TwitchMessage) :=
  match ch with
  | [] => some (App.update_rest a [] [])
  | m :: rest =>
    match App.processMsg a m.opt with
    | none => none
    | some (a1, dispatched) => some (App.update_rest a1 rest dispatched)

/-! ## Concrete fixtures for witnesses -/

/-- An oracle on which every remote call fails (token validation rejects,
every Helix GET errors). -/
def oracle0 : PlatformOracle :=
  { validate := fun _ => none
    topGames := fun _ _ => .error { detail := "network" }
    streams := fun _ _ _ => .error { detail := "network" }
    followed := fun _ _ _ => .error { detail := "network" } }

/-- An oracle whose token validation succeeds but yields a token with no
resolvable user identity. -/
def oracle1 : PlatformOracle :=
  { validate := fun _ => some { user_id := none }
    topGames := fun _ _ => .error { detail := "network" }
    streams := fun _ _ _ => .error { detail := "network" }
    followed := fun _ _ _ => .error { detail := "network" } }

/-- The state `App::default` produces when the configuration holds no token
(src/main.rs:178-200). -/
def app0 : App :=
  { token := ""
    config := { token := none }
    persisted := { token := none }
    login_pending := true
    current_view := .Login
    error_message := none
    categories := none
    streams := none
    followed_streams := none
    focused_stream := none
    focused_category := none
    focused_category_streams := none }

/-- A state forced to the CategoryView with no focused category while the
auto-login frame is still pending and a token is present. -/
def appC5 : App :=
  { app0 with token := "tok", current_view := .CategoryView }

/-- A state forced to the CategoryView with no focused category, past the
auto-login frame. -/
def appC5b : App :=
  { app0 with login_pending := false, current_view := .CategoryView }

/-! ## Claim theorems -/

/-- C1: a dispatched request whose token field is `None` makes the spawned
bridge task send nothing on the result channel — the channel after the task
equals the channel before (the task only logs an error and aborts). -/
theorem C1_missing_token_sends_nothing (o : PlatformOracle) (msg : TwitchMessage)
    (ch : Channel) (h : msg.token = none) : send_req o msg ch = ch := by
  unfold send_req
  rw [h]

/-- Witness for C1 at a concrete tokenless request on the empty channel. -/
theorem C1_witness :
    ({ token := none, opt := .GetFollowedStreams } : TwitchMessage).token = none ∧
    send_req oracle0 { token := none, opt := .GetFollowedStreams } [] = [] :=
  ⟨rfl, C1_missing_token_sends_nothing oracle0 { token := none, opt := .GetFollowedStreams } [] rfl⟩

/-- C9: every message the bridge task pushes onto the channel carries
`token = None`: any member of the channel after `send_req` was either already
queued or has no token — the captured bearer token is never echoed back, for
every request variant and both outcomes. -/
theorem C9_results_carry_no_token (o : PlatformOracle) (msg : TwitchMessage)
    (ch : Channel) (m : TwitchMessage) (h : m ∈ send_req o msg ch) :
    m ∈ ch ∨ m.token = none := by
  rcases msg with ⟨tok, opt⟩
  cases tok with
  | none => exact .inl h
  | some t =>
    cases opt <;>
      simp only [send_req, List.mem_append, List.mem_singleton] at h <;>
      first
        | exact .inl h
        | (rcases h with h | h
           · exact .inl h
           · subst h; exact .inr rfl)

/-- Witness for C9: the message produced by a concrete login-check dispatch is
tokenless. -/
theorem C9_witness :
    ({ token := none, opt := .LoginResult false } : TwitchMessage) ∈
      send_req oracle0 { token := some "tok", opt := .LoginCheck } [] ∧
    (({ token := none, opt := .LoginResult false } : TwitchMessage) ∈ ([] : Channel) ∨
      ({ token := none, opt := .LoginResult false } : TwitchMessage).token = none) :=
  ⟨List.mem_singleton.mpr rfl,
   C9_results_carry_no_token oracle0 { token := some "tok", opt := .LoginCheck } []
     { token := none, opt := .LoginResult false } (List.mem_singleton.mpr rfl)⟩

/-- C4: logout is a full reset — token emptied, configuration token cleared
and saved (persisted equals the cleared configuration), every catalog
snapshot slot and focused selection cleared, view back to Login. -/
theorem C4_logout_full_reset (a : App) :
    (App.logout a).token = "" ∧
    (App.logout a).config.token = none ∧
    (App.logout a).persisted = (App.logout a).config ∧
    (App.logout a).persisted.token = none ∧
    (App.logout a).categories = none ∧
    (App.logout a).streams = none ∧
    (App.logout a).followed_streams = none ∧
    (App.logout a).focused_category_streams = none ∧
    (App.logout a).focused_stream = none ∧
    (App.logout a).focused_category = none ∧
    (App.logout a).current_view = .Login := by
  simp [App.logout]

/-- C10: logout leaves `error_message` unchanged, and lands on the Login
view — a pre-logout error banner stays visible on the Login screen. -/
theorem C10_logout_preserves_error_message (a : App) :
    (App.logout a).error_message = a.error_message ∧
    (App.logout a).current_view = .Login := by
  simp [App.logout]

/-- C8: the callback listener's handler answers `GET /` with status 200 and
the fixed instructional body, answers every other method/path with status 404
and an empty body, and never fails (its error type is uninhabited, so the
result is always `.ok`). -/
theorem C8_handler_routes (m : Method) (p : String) :
    (m = .GET ∧ p = "/" →
      http_server_handler m p = .ok { status := 200, body := "Copy the token out of the URL above!" }) ∧
    (¬(m = .GET ∧ p = "/") →
      http_server_handler m p = .ok { status := 404, body := "" }) := by
  constructor
  · rintro ⟨hm, hp⟩
    subst hm; subst hp
    rfl
  · intro hn
    unfold http_server_handler
    split
    · exact absurd ⟨rfl, rfl⟩ hn
    · rfl

/-- Witness for C8 at `GET /` and `POST /`. -/
theorem C8_witness :
    http_server_handler .GET "/" = .ok { status := 200, body := "Copy the token out of the URL above!" } ∧
    http_server_handler .POST "/" = .ok { status := 404, body := "" } :=
  ⟨(C8_handler_routes .GET "/").1 ⟨rfl, rfl⟩,
   (C8_handler_routes .POST "/").2 (fun hc => Method.noConfusion hc.1)⟩

/-- C6: `check_login` returns true exactly when token validation
(`get_token`) succeeds, collapsing every failure to `false` (the function is
total — no error surfaces); in particular, when the platform rejects the
empty token, `check_login ""` is `false`. -/
theorem C6_check_login_boolean (o : PlatformOracle) (t : String) :
    (check_login o t = true ↔ ∃ i, get_token o t = .ok i) ∧
    (o.validate "" = none → check_login o "" = false) := by
  constructor
  · cases h : get_token o t with
    | ok i => simp [check_login, h]
    | error e => simp [check_login, h]
  · intro hv
    simp [check_login, get_token, hv]

/-- Witness for C6: the all-rejecting oracle refuses the empty token and
`check_login` collapses that to `false`. -/
theorem C6_witness : check_login oracle0 "" = false :=
  (C6_check_login_boolean oracle0 "").2 rfl

/-- C7: `get_followed_streams` returns `UserIdError` — issuing no Helix
request — when validation succeeds but the token has no resolvable user
identity; returns `TokenError` when validation fails; and wraps a failing
remote streams call as `ClientError`. -/
theorem C7_followed_streams_errors (o : PlatformOracle) (t : String) (p : Option String) :
    (∀ i, o.validate t = some i → i.user_id = none →
      get_followed_streams o t p = (.error .UserIdError, [])) ∧
    (o.validate t = none →
      get_followed_streams o t p = (.error .TokenError, [])) ∧
    (∀ i uid e, o.validate t = some i → i.user_id = some uid →
      o.followed t uid p = .error e →
      (get_followed_streams o t p).1 = .error (.ClientError e)) := by
  refine ⟨?_, ?_, ?_⟩
  · intro i hv hu
    simp [get_followed_streams, get_token, hv, hu]
  · intro hv
    simp [get_followed_streams, get_token, hv]
  · intro i uid e hv hu he
    simp [get_followed_streams, get_token, hv, hu, he]

/-- Witness for C7: an oracle validating to an identity-less token yields
`UserIdError` with no Helix request issued. -/
theorem C7_witness :
    oracle1.validate "tok" = some { user_id := none } ∧
    get_followed_streams oracle1 "tok" none = (.error .UserIdError, []) :=
  ⟨rfl, (C7_followed_streams_errors oracle1 "tok" none).1 { user_id := none } rfl rfl⟩

/-- Helper: the post-drain part of a frame never touches the channel. -/
theorem App.update_rest_channel (a : App) (ch : Channel) (ds : List TwitchMessage) :
    (App.update_rest a ch ds).2.1 = ch := by
  unfold App.update_rest
  split
  · rfl
  · split
    · split <;> rfl
    · rfl

/-- C2: one UI frame consumes at most one message from the channel — the
channel left for the next frame is exactly the queue minus its front, so every
queued excess result remains, in FIFO order, for subsequent frames. -/
theorem C2_drain_at_most_one (a : App) (ch : Channel)
    (r : App × Channel × List TwitchMessage) (h : App.update a ch = some r) :
    r.2.1 = ch.drop 1 := by
  cases ch with
  | nil =>
    simp only [App.update] at h
    injection h with h
    subst h
    exact App.update_rest_channel a [] []
  | cons m rest =>
    simp only [App.update] at h
    cases hp : App.processMsg a m.opt with
    | none => rw [hp] at h; cases h
    | some pr =>
      obtain ⟨a1, ds⟩ := pr
      rw [hp] at h
      injection h with h
      subst h
      exact App.update_rest_channel a1 rest ds

/-- Witness for C2 at a concrete state and the empty channel. -/
theorem C2_witness :
    App.update app0 [] = some ({ app0 with login_pending := false }, [], []) ∧
    (({ app0 with login_pending := false }, ([] : Channel),
        ([] : List TwitchMessage)) : App × Channel × List TwitchMessage).2.1 =
      ([] : Channel).drop 1 :=
  ⟨by decide, C2_drain_at_most_one app0 [] _ (by decide)⟩

/-- C3 counterexample: the claim's never-panics clause fails — draining a
`TopCategoriesResult` carrying an `Err` payload hits `result.unwrap()`
(src/main.rs:275) and panics the UI thread (modelled as `none`). -/
theorem C3_counterexample :
    App.update app0 [{ token := none, opt := .TopCategoriesResult (.error .TokenError) }] =
      none := rfl

/-- C3 as amended: each of the four catalog Result variants with an `Ok`
payload writes exactly its matching snapshot slot, leaving every other field
unchanged; unexpected (request-side) variants are logged and dropped with the
state unchanged; but a catalog Result carrying an `Err` payload panics the UI
thread through the unchecked unwrap. -/
theorem C3_amended_slot_routing (a : App) :
    (∀ v, App.processMsg a (.TopCategoriesResult (.ok v)) =
      some ({ a with categories := some v }, [])) ∧
    (∀ v, App.processMsg a (.StreamsResult (.ok v)) =
      some ({ a with streams := some v }, [])) ∧
    (∀ v, App.processMsg a (.GetFollowedStreamsResult (.ok v)) =
      some ({ a with followed_streams := some v }, [])) ∧
    (∀ v, App.processMsg a (.GetCategoryStreamsResult (.ok v)) =
      some ({ a with focused_category_streams := some v }, [])) ∧
    (∀ e, App.processMsg a (.TopCategoriesResult (.error e)) = none) ∧
    (∀ e, App.processMsg a (.StreamsResult (.error e)) = none) ∧
    (∀ e, App.processMsg a (.GetFollowedStreamsResult (.error e)) = none) ∧
    (∀ e, App.processMsg a (.GetCategoryStreamsResult (.error e)) = none) ∧
    App.processMsg a .LoginCheck = some (a, []) ∧
    (∀ p, App.processMsg a (.GetTopCategories p) = some (a, [])) ∧
    (∀ p, App.processMsg a (.GetStreams p) = some (a, [])) ∧
    App.processMsg a .GetFollowedStreams = some (a, []) ∧
    (∀ c, App.processMsg a (.GetCategoryStreams c) = some (a, [])) :=
  ⟨fun _ => rfl, fun _ => rfl, fun _ => rfl, fun _ => rfl,
   fun _ => rfl, fun _ => rfl, fun _ => rfl, fun _ => rfl,
   rfl, fun _ => rfl, fun _ => rfl, rfl, fun _ => rfl⟩

/-- Helper: when the current view is CategoryView, dispatching a drained
message preserves the view, the focused category, the pending flag and the
token (only the Login view reacts to a LoginResult; catalog results only fill
their slots). -/
theorem App.processMsg_preserves (a : App) (opt : TwitchOption) (a1 : App)
    (ds : List TwitchMessage) (hv : a.current_view = .CategoryView)
    (h : App.processMsg a opt = some (a1, ds)) :
    a1.current_view = .CategoryView ∧ a1.focused_category = a.focused_category ∧
    a1.login_pending = a.login_pending ∧ a1.token = a.token := by
  cases opt with
  | LoginResult b =>
    simp only [App.processMsg, hv, Option.some.injEq, Prod.mk.injEq] at h
    obtain ⟨ha, hd⟩ := h
    subst ha
    exact ⟨hv, rfl, rfl, rfl⟩
  | TopCategoriesResult r =>
    cases r with
    | ok v =>
      simp only [App.processMsg, Option.some.injEq, Prod.mk.injEq] at h
      obtain ⟨ha, hd⟩ := h
      subst ha
      exact ⟨hv, rfl, rfl, rfl⟩
    | error e =>
      simp only [App.processMsg] at h
      exact Option.noConfusion h
  | StreamsResult r =>
    cases r with
    | ok v =>
      simp only [App.processMsg, Option.some.injEq, Prod.mk.injEq] at h
      obtain ⟨ha, hd⟩ := h
      subst ha
      exact ⟨hv, rfl, rfl, rfl⟩
    | error e =>
      simp only [App.processMsg] at h
      exact Option.noConfusion h
  | GetFollowedStreamsResult r =>
    cases r with
    | ok v =>
      simp only [App.processMsg, Option.some.injEq, Prod.mk.injEq] at h
      obtain ⟨ha, hd⟩ := h
      subst ha
      exact ⟨hv, rfl, rfl, rfl⟩
    | error e =>
      simp only [App.processMsg] at h
      exact Option.noConfusion h
  | GetCategoryStreamsResult r =>
    cases r with
    | ok v =>
      simp only [App.processMsg, Option.some.injEq, Prod.mk.injEq] at h
      obtain ⟨ha, hd⟩ := h
      subst ha
      exact ⟨hv, rfl, rfl, rfl⟩
    | error e =>
      simp only [App.processMsg] at h
      exact Option.noConfusion h
  | LoginCheck =>
    simp only [App.processMsg, Option.some.injEq, Prod.mk.injEq] at h
    obtain ⟨ha, hd⟩ := h
    subst ha
    exact ⟨hv, rfl, rfl, rfl⟩
  | GetTopCategories p =>
    simp only [App.processMsg, Option.some.injEq, Prod.mk.injEq] at h
    obtain ⟨ha, hd⟩ := h
    subst ha
    exact ⟨hv, rfl, rfl, rfl⟩
  | GetStreams p =>
    simp only [App.processMsg, Option.some.injEq, Prod.mk.injEq] at h
    obtain ⟨ha, hd⟩ := h
    subst ha
    exact ⟨hv, rfl, rfl, rfl⟩
  | GetFollowedStreams =>
    simp only [App.processMsg, Option.some.injEq, Prod.mk.injEq] at h
    obtain ⟨ha, hd⟩ := h
    subst ha
    exact ⟨hv, rfl, rfl, rfl⟩
  | GetCategoryStreams c =>
    simp only [App.processMsg, Option.some.injEq, Prod.mk.injEq] at h
    obtain ⟨ha, hd⟩ := h
    subst ha
    exact ⟨hv, rfl, rfl, rfl⟩

/-- Helper: past the auto-login early return, rendering the CategoryView with
no focused category transitions back to Categories. -/
theorem App.update_rest_heals (a : App) (ch : Channel) (ds : List TwitchMessage)
    (hv : a.current_view = .CategoryView) (hf : a.focused_category = none)
    (hl : ¬(a.login_pending = true ∧ a.token ≠ "")) :
    (App.update_rest a ch ds).1.current_view = .Categories := by
  unfold App.update_rest
  rw [if_neg hl]
  simp [hv, hf]

/-- C5 counterexample: in a state forced to CategoryView with no focused
category but with the auto-login frame still pending and a token present
(src/main.rs:297-311 returns early), one render tick leaves the view at
CategoryView — it is not set back to Categories. -/
theorem C5_counterexample :
    appC5.current_view = .CategoryView ∧ appC5.focused_category = none ∧
    (App.update appC5 []).map (fun r => r.1.current_view) = some .CategoryView ∧
    AppView.CategoryView ≠ AppView.Categories :=
  ⟨rfl, rfl, by decide, by decide⟩

/-- C5 as amended: whenever the view is CategoryView with no focused category
and the frame is not the auto-login early-return frame (the pending flag is
clear or the token empty), a render tick that completes without panicking
sets the view back to Categories. -/
theorem C5_amended_self_heal (a : App) (ch : Channel)
    (r : App × Channel × List TwitchMessage)
    (hv : a.current_view = .CategoryView) (hf : a.focused_category = none)
    (hl : ¬(a.login_pending = true ∧ a.token ≠ ""))
    (h : App.update a ch = some r) :
    r.1.current_view = .Categories := by
  cases ch with
  | nil =>
    simp only [App.update] at h
    injection h with h
    subst h
    exact App.update_rest_heals a [] [] hv hf hl
  | cons m rest =>
    simp only [App.update] at h
    cases hp : App.processMsg a m.opt with
    | none => rw [hp] at h; cases h
    | some pr =>
      obtain ⟨a1, ds⟩ := pr
      rw [hp] at h
      injection h with h
      subst h
      obtain ⟨h1, h2, h3, h4⟩ := App.processMsg_preserves a m.opt a1 ds hv hp
      refine App.update_rest_heals a1 rest ds h1 (h2.trans hf) ?_
      rw [h3, h4]
      exact hl

/-- Witness for C5 at a concrete post-login state on the empty channel. -/
theorem C5_witness :
    appC5b.current_view = .CategoryView ∧ appC5b.focused_category = none ∧
    ¬(appC5b.login_pending = true ∧ appC5b.token ≠ "") ∧
    App.update appC5b [] =
      some ({ appC5b with current_view := .Categories }, [], []) ∧
    (({ appC5b with current_view := .Categories }, ([] : Channel),
        ([] : List TwitchMessage)) : App × Channel × List TwitchMessage).1.current_view =
      .Categories :=
  ⟨rfl, rfl, by decide, by decide,
   C5_amended_self_heal appC5b [] _ rfl rfl (by decide) (by decide)⟩

end Streamgui
